import Mathlib

/-!
Shallow embedding of the color_UI repository (src/test.py, src/main.py).

The embedding covers:
  - the palette organizer `organize_palette` (src/test.py lines 169-230);
  - the provider-reply parsing shared by the two adapters
    `extract_colors_with_gemini` (lines 70-93) and
    `suggest_colors_with_chatgroq` (lines 144-167), including models of the
    Python library calls they make: `re.search` on the pattern \x5b.*\x5d with
    DOTALL, `json.loads`, `re.findall` on 6-hex-digit tokens, and `re.match`
    against the anchored hex pattern;
  - the per-role color analysis built by the request handler `suggest_colors`
    (src/main.py lines 130-185).

All definitions are computable; concrete runs are settled by `decide`.
-/

/-! ## Hex digits and channel decoding -/

/-- Decides whether a character is one of 0-9, a-f, A-F, as in the character
class used by the repository in all of its regular expressions. -/
def hexDigit (c : Char) : Bool :=
  ('0' ≤ c && c ≤ '9') || ('a' ≤ c && c ≤ 'f') || ('A' ≤ c && c ≤ 'F')

/-- Numeric value of one hex digit, as `int(-, 16)` assigns it in Python.
The organizer only ever applies it to digits of validated hex colors; on any
other character the value 0 stands in (Python would raise instead, a case the
adapters rule out upstream). -/
def hexDigitVal (c : Char) : Nat :=
  if '0' ≤ c && c ≤ '9' then c.toNat - '0'.toNat
  else if 'a' ≤ c && c ≤ 'f' then c.toNat - 'a'.toNat + 10
  else if 'A' ≤ c && c ≤ 'F' then c.toNat - 'A'.toNat + 10
  else 0

/-- Value of the two-character slice `color[i:i+2]` read as a base-16 number:
the Python `int(color[1:3], 16)` / `int(color[3:5], 16)` / `int(color[5:7], 16)`
of src/test.py lines 194-196 and 207-209. -/
def hexPairVal (s : String) (i : Nat) : Nat :=
  16 * hexDigitVal (s.toList.getD i '0') + hexDigitVal (s.toList.getD (i + 1) '0')

/-! ## Brightness (weighted luma) -/

/-- The integer numerator `r * 299 + g * 587 + b * 114` of the brightness
formula of src/test.py lines 197 and 210, before the division by 1000. -/
def brightness1000 (c : String) : Nat :=
  hexPairVal c 1 * 299 + hexPairVal c 3 * 587 + hexPairVal c 5 * 114

/-- Brightness exactly as the source computes it:
`(r * 299 + g * 587 + b * 114) / 1000` as an exact ratio. The Python code
evaluates this in floating point, but for integer numerators up to 255000 the
comparisons against 200 and 80 agree with the exact rational value. -/
def brightness (c : String) : ℚ :=
  (brightness1000 c : ℚ) / 1000

/-- The test `brightness > 200` of src/test.py line 199, written on the scaled
integer numerator (`v / 1000 > 200` iff `v > 200 * 1000`); the equivalence with
the rational form is proved in `is_light_iff`. -/
def is_light (c : String) : Bool :=
  decide (200 * 1000 < brightness1000 c)

/-- The test `brightness < 80` of src/test.py line 212, written on the scaled
integer numerator; the equivalence with the rational form is proved in
`is_dark_iff`. -/
def is_dark (c : String) : Bool :=
  decide (brightness1000 c < 80 * 1000)

theorem is_light_iff (c : String) : is_light c = true ↔ (200 : ℚ) < brightness c := by
  unfold is_light brightness
  rw [decide_eq_true_iff, lt_div_iff₀ (by norm_num : (0 : ℚ) < 1000),
    show ((200 : ℚ) * 1000) = ((200 * 1000 : ℕ) : ℚ) by norm_num, Nat.cast_lt]

theorem is_dark_iff (c : String) : is_dark c = true ↔ brightness c < (80 : ℚ) := by
  unfold is_dark brightness
  rw [decide_eq_true_iff, div_lt_iff₀ (by norm_num : (0 : ℚ) < 1000),
    show ((80 : ℚ) * 1000) = ((80 * 1000 : ℕ) : ℚ) by norm_num, Nat.cast_lt]

/-! ## The palette organizer -/

/-- The colors of brightness above 200 collected by the loop of src/test.py
lines 191-200, in the order of `all_colors`. -/
def light_colors (all_colors : List String) : List String :=
  all_colors.filter is_light

/-- The colors of brightness below 80 collected by the loop of src/test.py
lines 205-213, in the order of `all_colors`. -/
def dark_colors (all_colors : List String) : List String :=
  all_colors.filter is_dark

/-- The palette dictionary built by `organize_palette`: the five role colors,
the list under the key "additional", and the nested "ui_components" dictionary
(kept as an association list in insertion order). -/
structure Palette where
  primary : String
  secondary : String
  accent : String
  background : String
  text : String
  additional : List String
  ui_components : List (String × String)
deriving DecidableEq, Repr

/-- Embedding of `organize_palette` (src/test.py lines 169-230).
Python index-with-fallback expressions `xs[i] if len(xs) > i else d` become
`List.getD`; the set `used_colors` becomes membership in the five-element
list, which tests the same string equalities. -/
def organize_palette (image_colors description_colors : List String) : Palette :=
  let all_colors := image_colors ++ description_colors
  let primary := image_colors.getD 0 (description_colors.getD 0 "#3498db")
  let secondary := image_colors.getD 1 (description_colors.getD 1 "#2ecc71")
  let accent :=
    match description_colors with
    | d :: _ => if d = primary ∨ d = secondary then image_colors.getD 2 "#e74c3c" else d
    | [] => image_colors.getD 2 "#e74c3c"
  let background := (light_colors all_colors).getD 0 "#ffffff"
  let text := (dark_colors all_colors).getD 0 "#333333"
  let used_colors := [primary, secondary, accent, background, text]
  let additional := (all_colors.filter (fun c => !(decide (c ∈ used_colors)))).take 3
  { primary := primary
    secondary := secondary
    accent := accent
    background := background
    text := text
    additional := additional
    ui_components :=
      [("button", primary),
       ("button_hover", secondary),
       ("header", primary),
       ("card_background", if background ≠ "#ffffff" then "#ffffff" else "#f8f9fa"),
       ("border", "#e0e0e0")] }

/-! ## Adapter reply parsing

Both adapters parse the provider reply with the same code
(src/test.py lines 70-89 and 144-163):
  1. `re.search` for the pattern \x5b.*\x5d with DOTALL; on a match,
     `json.loads` of the matched substring;
  2. on no match or a JSON error, `re.findall` of 6-hex-digit tokens over the
     whole reply;
  3. a pass prepending "#" to tokens lacking it,
  4. and a filter keeping tokens accepted by `re.match` against the anchored
     6-hex-digit pattern.
A JSON array containing a non-string raises AttributeError at step 3, which
the enclosing handler of each adapter turns into an empty result. -/

/-- JSON values, as far as the adapters can observe them: only string elements
survive to the output, so numbers keep no payload. -/
inductive JVal where
  | jstr (s : String)
  | jnum
  | jbool (b : Bool)
  | jnull
  | jarr (elems : List JVal)
  | jobj (fields : List (String × JVal))

/-- JSON whitespace, the four characters `json.loads` skips between tokens. -/
def jsonWs (c : Char) : Bool :=
  c == ' ' || c == '\t' || c == '\n' || c == '\r'

def skipWs (cs : List Char) : List Char :=
  cs.dropWhile jsonWs

/-- Decimal digit test for the JSON number grammar. -/
def digitChar (c : Char) : Bool :=
  '0' ≤ c && c ≤ '9'

/-- Body of a JSON string after its opening quote, with the strict escape
rules of `json.loads`: the eight one-character escapes, \uXXXX, and a ban on
raw control characters. `acc` holds the decoded characters in reverse.
One knowing simplification: `Char.ofNat` maps the code of a \uXXXX escape to
a single character, so a UTF-16 surrogate pair decodes to two placeholder
characters instead of one code point; parse success and failure, which is all
the claims depend on, agree with Python either way. -/
def parseStringBody : List Char → List Char → Option (String × List Char)
  | [], _ => none
  | '"' :: rest, acc => some (String.mk acc.reverse, rest)
  | '\\' :: rest, acc =>
    match rest with
    | '"' :: r => parseStringBody r ('"' :: acc)
    | '\\' :: r => parseStringBody r ('\\' :: acc)
    | '/' :: r => parseStringBody r ('/' :: acc)
    | 'b' :: r => parseStringBody r (Char.ofNat 8 :: acc)
    | 'f' :: r => parseStringBody r (Char.ofNat 12 :: acc)
    | 'n' :: r => parseStringBody r ('\n' :: acc)
    | 'r' :: r => parseStringBody r ('\r' :: acc)
    | 't' :: r => parseStringBody r ('\t' :: acc)
    | 'u' :: h1 :: h2 :: h3 :: h4 :: r =>
      if hexDigit h1 && hexDigit h2 && hexDigit h3 && hexDigit h4 then
        parseStringBody r
          (Char.ofNat (4096 * hexDigitVal h1 + 256 * hexDigitVal h2 +
            16 * hexDigitVal h3 + hexDigitVal h4) :: acc)
      else none
    | _ => none
  | c :: rest, acc =>
    if c.toNat < 32 then none else parseStringBody rest (c :: acc)

/-- Consumes an optional fraction part `.digits` after the integer part of a
JSON number; leaves the input unchanged when the grammar does not match. -/
def parseFracPart (cs : List Char) : List Char :=
  match cs with
  | '.' :: rest =>
    match rest with
    | d :: _ => if digitChar d then rest.dropWhile digitChar else cs
    | [] => cs
  | _ => cs

/-- Consumes an optional exponent part after a JSON number; leaves the input
unchanged when the grammar does not match. -/
def parseExpPart (cs : List Char) : List Char :=
  match cs with
  | e :: rest =>
    if e == 'e' || e == 'E' then
      let rest2 := match rest with
        | s :: r => if s == '+' || s == '-' then r else rest
        | [] => rest
      match rest2 with
      | d :: _ => if digitChar d then rest2.dropWhile digitChar else cs
      | [] => cs
    else cs
  | [] => []

/-- Consumes one JSON number (grammar `-?(0|[1-9][0-9]*)(.[0-9]+)?([eE][+-]?[0-9]+)?`,
the regex the Python scanner uses) and returns the remaining input, or `none`
when no number starts here. -/
def parseNumber (cs : List Char) : Option (List Char) :=
  let cs1 := match cs with | '-' :: r => r | _ => cs
  match cs1 with
  | '0' :: r => some (parseExpPart (parseFracPart r))
  | c :: r =>
    if digitChar c then some (parseExpPart (parseFracPart (r.dropWhile digitChar)))
    else none
  | [] => none

mutual

/-- One JSON value with leading whitespace, returning the remaining input.
Fuel bounds the recursion depth; `jsonParse` supplies more fuel than any
input can consume, so running out of fuel is unreachable there. Besides the
JSON standard, the non-standard constants NaN, Infinity and -Infinity that
`json.loads` accepts by default are recognized. -/
def parseVal : Nat → List Char → Option (JVal × List Char)
  | 0, _ => none
  | Nat.succ f, cs =>
    match skipWs cs with
    | '"' :: rest => (parseStringBody rest []).map (fun p => (JVal.jstr p.1, p.2))
    | '[' :: rest =>
      match skipWs rest with
      | ']' :: r2 => some (JVal.jarr [], r2)
      | r2 => (parseElems f r2).map (fun p => (JVal.jarr p.1, p.2))
    | '{' :: rest =>
      match skipWs rest with
      | '}' :: r2 => some (JVal.jobj [], r2)
      | r2 => (parseMembers f r2).map (fun p => (JVal.jobj p.1, p.2))
    | 't' :: 'r' :: 'u' :: 'e' :: rest => some (JVal.jbool true, rest)
    | 'f' :: 'a' :: 'l' :: 's' :: 'e' :: rest => some (JVal.jbool false, rest)
    | 'n' :: 'u' :: 'l' :: 'l' :: rest => some (JVal.jnull, rest)
    | 'N' :: 'a' :: 'N' :: rest => some (JVal.jnum, rest)
    | 'I' :: 'n' :: 'f' :: 'i' :: 'n' :: 'i' :: 't' :: 'y' :: rest => some (JVal.jnum, rest)
    | '-' :: 'I' :: 'n' :: 'f' :: 'i' :: 'n' :: 'i' :: 't' :: 'y' :: rest => some (JVal.jnum, rest)
    | c :: rest =>
      if c == '-' || digitChar c then
        (parseNumber (c :: rest)).map (fun r => (JVal.jnum, r))
      else none
    | [] => none

/-- Comma-separated JSON array elements up to and including the closing
bracket; the empty array is handled by `parseVal` before calling this. -/
def parseElems : Nat → List Char → Option (List JVal × List Char)
  | 0, _ => none
  | Nat.succ f, cs =>
    match parseVal f cs with
    | none => none
    | some (v, r) =>
      match skipWs r with
      | ',' :: r2 => (parseElems f r2).map (fun p => (v :: p.1, p.2))
      | ']' :: r2 => some ([v], r2)
      | _ => none

/-- Comma-separated JSON object members up to and including the closing
brace; the empty object is handled by `parseVal` before calling this. -/
def parseMembers : Nat → List Char → Option (List (String × JVal) × List Char)
  | 0, _ => none
  | Nat.succ f, cs =>
    match skipWs cs with
    | '"' :: rest =>
      match parseStringBody rest [] with
      | none => none
      | some (k, r) =>
        match skipWs r with
        | ':' :: r2 =>
          match parseVal f r2 with
          | none => none
          | some (v, r3) =>
            match skipWs r3 with
            | ',' :: r4 => (parseMembers f r4).map (fun p => ((k, v) :: p.1, p.2))
            | '}' :: r4 => some ([(k, v)], r4)
            | _ => none
        | _ => none
    | _ => none

end

/-- Model of `json.loads`: one JSON document, with whitespace allowed around
it and nothing but whitespace after it. The fuel `2 * length + 2` exceeds the
recursion depth possible on the input: every two nested calls consume at
least one character. -/
def jsonParse (s : String) : Option JVal :=
  let cs := s.toList
  match parseVal (2 * cs.length + 2) cs with
  | some (v, rest) => if (skipWs rest).isEmpty then some v else none
  | none => none

/-- Model of `re.search` for the DOTALL pattern matching a bracketed chunk
(src/test.py lines 73 and 147): the match, when one exists, runs from the
first opening bracket that has a closing bracket after it, greedily to the
last closing bracket of the whole text. -/
def findJsonArray (s : String) : Option String :=
  match s.toList.dropWhile (fun c => !(c == '[')) with
  | '[' :: t =>
    match (t.reverse.dropWhile (fun c => !(c == ']'))).reverse with
    | [] => none
    | t2 => some (String.mk ('[' :: t2))
  | _ => none

/-- Model of `re.findall` for the 6-hex-digit token pattern (src/test.py
lines 78, 81, 152, 155): leftmost, non-overlapping occurrences; after a hash
sign that six hex digits do not follow, scanning resumes at the next
character. -/
def findallHexAux : Nat → List Char → List String
  | 0, _ => []
  | Nat.succ f, cs =>
    match cs with
    | '#' :: c1 :: c2 :: c3 :: c4 :: c5 :: c6 :: rest2 =>
      if hexDigit c1 && hexDigit c2 && hexDigit c3 && hexDigit c4 &&
          hexDigit c5 && hexDigit c6 then
        String.mk ['#', c1, c2, c3, c4, c5, c6] :: findallHexAux f rest2
      else findallHexAux f (c1 :: c2 :: c3 :: c4 :: c5 :: c6 :: rest2)
    | _ :: rest => findallHexAux f rest
    | [] => []

/-- Entry point of the token scan: every step of `findallHexAux` consumes at
least one character, so fuel equal to the length runs the scan to the end. -/
def findallHex (cs : List Char) : List String :=
  findallHexAux cs.length cs

/-- Model of Python `re.match` against the anchored 6-hex-digit pattern
(src/test.py lines 87 and 161). Python anchors the dollar at the end of the
string or just before one trailing newline, so a token consisting of a hash
sign, six hex digits and a final newline is accepted too. -/
def pymatchHex (s : String) : Bool :=
  match s.toList with
  | '#' :: c1 :: c2 :: c3 :: c4 :: c5 :: c6 :: rest =>
    hexDigit c1 && hexDigit c2 && hexDigit c3 && hexDigit c4 &&
      hexDigit c5 && hexDigit c6 && (rest.isEmpty || rest == ['\n'])
  | _ => false

/-- Full match against the 6-hex-digit pattern: exactly a hash sign followed
by six hex digits, the HexColor shape of the specification. -/
def isHexColor (s : String) : Bool :=
  match s.toList with
  | '#' :: c1 :: c2 :: c3 :: c4 :: c5 :: c6 :: [] =>
    hexDigit c1 && hexDigit c2 && hexDigit c3 && hexDigit c4 &&
      hexDigit c5 && hexDigit c6
  | _ => false

/-- Model of `str.startswith` for the hash-sign prefix used at src/test.py
lines 84 and 158. -/
def startsWithHash (s : String) : Bool :=
  match s.toList with
  | '#' :: _ => true
  | _ => false

/-- The string elements of a decoded JSON array, or `none` when an element is
not a string: in Python such an element raises AttributeError in the
normalization pass, which the enclosing handler turns into an empty result. -/
def allStrings : List JVal → Option (List String)
  | [] => some []
  | JVal.jstr s :: rest => (allStrings rest).map (fun l => s :: l)
  | _ => none

/-- The `colors` list of src/test.py lines 70-81 and 144-155 before
normalization; `none` models the path where a decoded array holds a
non-string and the comprehension raises. -/
def rawColors (text : String) : Option (List String) :=
  match findJsonArray text with
  | some sub =>
    match jsonParse sub with
    | some (JVal.jarr vals) => allStrings vals
    | some _ => none
    | none => some (findallHex text.toList)
  | none => some (findallHex text.toList)

/-- The parsing pipeline both adapters apply to the provider reply text:
candidate list, hash-sign normalization, validity filter; an exception
during normalization yields the empty list via the enclosing handler. -/
def parse_provider_reply (text : String) : List String :=
  match rawColors text with
  | some colors =>
    (colors.map (fun c => if startsWithHash c then c else String.mk ('#' :: c.toList))).filter
      pymatchHex
  | none => []

/-- The parsing stage of `extract_colors_with_gemini` (src/test.py lines
70-89), applied to the reply text of the vision model. -/
def extract_colors_parse (response_text : String) : List String :=
  parse_provider_reply response_text

/-- The parsing stage of `suggest_colors_with_chatgroq` (src/test.py lines
144-163), textually identical to the Gemini one, applied to the reply text of
the language model. -/
def suggest_colors_parse (response_text : String) : List String :=
  parse_provider_reply response_text

/-- The JSON-array decoding attempt of an adapter: the bracketed substring,
when the reply has one, decoded by `json.loads`. `none` means the reply holds
no decodable JSON array and the adapter falls back to the token scan. -/
def decodeJsonArray (text : String) : Option JVal :=
  (findJsonArray text).bind jsonParse

/-! ## The request handler's per-role color analysis (src/main.py 130-185) -/

/-- One entry of the `color_analysis` mapping of `suggest_colors`. -/
structure ColorAnalysis where
  color : String
  suggested_color : Option String
  is_perfect_match : Bool
  reason : String
deriving DecidableEq, Repr

/-- One role's analysis block, as each of the five stanzas of src/main.py
lines 135-185 builds it: Python compares the role color (a string) with the
positional suggestion (a string or None), so the comparison is equality with
`some` of the role color. -/
def analyzeRole (color : String) (suggested : Option String) (mismatch_reason : String) :
    ColorAnalysis :=
  { color := color
    suggested_color := if suggested = some color then none else suggested
    is_perfect_match := decide (suggested = some color)
    reason :=
      if suggested = some color then "Perfect match! No change needed" else mismatch_reason }

/-- The `color_analysis` dictionary of `suggest_colors` (src/main.py lines
130-185): one entry per role, comparing the organized palette against the
positional entries of `description_based` (0 primary, 1 secondary, 2 accent,
3 background, 4 text). `xs[i] if len(xs) > i else None` becomes `List.get?`. -/
def color_analysis (palette : Palette) (description_based : List String) :
    List (String × ColorAnalysis) :=
  [("primary", analyzeRole palette.primary (description_based.get? 0)
      "The suggested color better aligns with your project\x27s theme and enhances user experience"),
   ("secondary", analyzeRole palette.secondary (description_based.get? 1)
      "The suggested color provides better contrast and visual hierarchy"),
   ("accent", analyzeRole palette.accent (description_based.get? 2)
      "The suggested color creates better visual interest and highlights important elements"),
   ("background", analyzeRole palette.background (description_based.get? 3)
      "The suggested color improves readability and reduces eye strain"),
   ("text", analyzeRole palette.text (description_based.get? 4)
      "The suggested color ensures better readability and accessibility")]

/-- The positional index the request handler associates with each role name. -/
def roleIdx : String → Nat
  | "primary" => 0
  | "secondary" => 1
  | "accent" => 2
  | "background" => 3
  | "text" => 4
  | _ => 5

/-- The organized-palette color of a role name. -/
def roleColor (p : Palette) : String → String
  | "primary" => p.primary
  | "secondary" => p.secondary
  | "accent" => p.accent
  | "background" => p.background
  | "text" => p.text
  | _ => ""

/-! ## Helper lemmas -/

theorem organize_palette_additional_eq (ic dc : List String) :
    (organize_palette ic dc).additional =
      ((ic ++ dc).filter (fun c => !(decide (c ∈
        [(organize_palette ic dc).primary, (organize_palette ic dc).secondary,
         (organize_palette ic dc).accent, (organize_palette ic dc).background,
         (organize_palette ic dc).text])))).take 3 := rfl

theorem parse_provider_reply_all_match (text : String) :
    ∀ c ∈ parse_provider_reply text, pymatchHex c = true := by
  intro c hc
  unfold parse_provider_reply at hc
  cases h : rawColors text with
  | none => rw [h] at hc; simp at hc
  | some colors => rw [h] at hc; exact (List.mem_filter.mp hc).2

theorem rawColors_of_no_array (text : String)
    (h : (decodeJsonArray text).isNone = true) :
    rawColors text = some (findallHex text.toList) := by
  cases hf : findJsonArray text with
  | none => simp [rawColors, hf]
  | some sub =>
    have h2 : jsonParse sub = none := by
      simpa [decodeJsonArray, hf, Option.isNone_iff_eq_none] using h
    simp [rawColors, hf, h2]

theorem parse_provider_reply_from_raw (text : String) :
    ∀ c ∈ parse_provider_reply text,
      ∃ raw ∈ (rawColors text).getD [], c = raw ∨ c = String.mk ('#' :: raw.toList) := by
  intro c hc
  unfold parse_provider_reply at hc
  cases h : rawColors text with
  | none => rw [h] at hc; simp at hc
  | some colors =>
    rw [h] at hc
    obtain ⟨r, hr, hf⟩ := List.mem_map.mp (List.mem_filter.mp hc).1
    refine ⟨r, by simpa using hr, ?_⟩
    by_cases hs : startsWithHash r = true
    · left; rw [← hf, if_pos hs]
    · right; rw [← hf, if_neg hs]

theorem parse_provider_reply_empty (text : String)
    (h1 : (decodeJsonArray text).isNone = true)
    (h2 : findallHex text.toList = []) :
    parse_provider_reply text = [] := by
  have hr := rawColors_of_no_array text h1
  rw [h2] at hr
  simp [parse_provider_reply, hr]

/-! ## The claims -/

/-- C1 (corrected): on `image_colors = ["#112233"]` and
`description_colors = ["#ffffff", "#000000"]` the organizer returns
primary #112233, secondary #000000, accent #ffffff, background #ffffff —
and text #112233, the first color of brightness below 80 in `all_colors`
order, not #000000 as the claim stated. -/
theorem claim_C1 :
    (organize_palette ["#112233"] ["#ffffff", "#000000"]).primary = "#112233" ∧
    (organize_palette ["#112233"] ["#ffffff", "#000000"]).secondary = "#000000" ∧
    (organize_palette ["#112233"] ["#ffffff", "#000000"]).accent = "#ffffff" ∧
    (organize_palette ["#112233"] ["#ffffff", "#000000"]).background = "#ffffff" ∧
    (organize_palette ["#112233"] ["#ffffff", "#000000"]).text = "#112233" := by
  decide

/-- C1, counterexample to the claim as stated: on the claim's own input the
text role receives "#112233" (brightness 30.855, below the dark threshold 80
and first in `all_colors` order), which differs from the claimed "#000000". -/
theorem claim_C1_cex :
    (organize_palette ["#112233"] ["#ffffff", "#000000"]).text = "#112233" ∧
    ("#112233" : String) ≠ "#000000" := by
  decide

/-- C2 (confirmed): on two empty inputs the organizer returns exactly the
five hard-coded defaults, an empty additional list, and the constant
ui_components mapping with card_background "#f8f9fa" (the background being
"#ffffff"); being a total function, it raises nothing. -/
theorem claim_C2 :
    organize_palette [] [] =
      { primary := "#3498db", secondary := "#2ecc71", accent := "#e74c3c",
        background := "#ffffff", text := "#333333", additional := [],
        ui_components :=
          [("button", "#3498db"), ("button_hover", "#2ecc71"), ("header", "#3498db"),
           ("card_background", "#f8f9fa"), ("border", "#e0e0e0")] } := by
  decide

/-- C3 (confirmed): for valid hex color inputs, the additional list has at
most three elements, is an order-preserving selection (sublist) of
`image_colors ++ description_colors`, and contains no string equal to any of
the five role colors. -/
theorem claim_C3 (image_colors description_colors : List String)
    (hv : ∀ c ∈ image_colors ++ description_colors, isHexColor c = true) :
    (organize_palette image_colors description_colors).additional.length ≤ 3 ∧
    (organize_palette image_colors description_colors).additional.Sublist
      (image_colors ++ description_colors) ∧
    ∀ c ∈ (organize_palette image_colors description_colors).additional,
      c ≠ (organize_palette image_colors description_colors).primary ∧
      c ≠ (organize_palette image_colors description_colors).secondary ∧
      c ≠ (organize_palette image_colors description_colors).accent ∧
      c ≠ (organize_palette image_colors description_colors).background ∧
      c ≠ (organize_palette image_colors description_colors).text := by
  refine ⟨?_, ?_, ?_⟩
  · rw [organize_palette_additional_eq]
    exact List.length_take_le 3 _
  · rw [organize_palette_additional_eq]
    exact (List.take_sublist _ _).trans (List.filter_sublist _)
  · intro c hc
    rw [organize_palette_additional_eq] at hc
    have h2 := List.mem_filter.mp (List.mem_of_mem_take hc)
    have h3 := h2.2
    simp only [List.mem_cons, List.not_mem_nil, or_false, Bool.not_eq_true',
      decide_eq_false_iff_not, not_or] at h3
    exact ⟨h3.1, h3.2.1, h3.2.2.1, h3.2.2.2.1, h3.2.2.2.2⟩

/-- C3, witness at a concrete input. -/
theorem claim_C3_witness :
    (organize_palette ["#111111", "#222222"] ["#ffffff"]).additional.length ≤ 3 :=
  (claim_C3 ["#111111", "#222222"] ["#ffffff"] (by decide)).1

/-- C4 (confirmed): brightness is the weighted luma of the three decoded
byte-pairs divided by 1000; the light and dark tests are the strict
comparisons against 200 and 80 of that value; "#ffffff" has brightness 255
and is light, "#000000" has brightness 0 and is dark, and "#808080" has
brightness 128 and enters neither the light nor the dark list. -/
theorem claim_C4 :
    (∀ c : String, brightness c =
      ((hexPairVal c 1 * 299 + hexPairVal c 3 * 587 + hexPairVal c 5 * 114 : ℕ) : ℚ) / 1000) ∧
    (∀ c : String, is_light c = true ↔ (200 : ℚ) < brightness c) ∧
    (∀ c : String, is_dark c = true ↔ brightness c < (80 : ℚ)) ∧
    brightness "#ffffff" = 255 ∧
    brightness "#000000" = 0 ∧
    brightness "#808080" = 128 ∧
    light_colors ["#ffffff", "#000000", "#808080"] = ["#ffffff"] ∧
    dark_colors ["#ffffff", "#000000", "#808080"] = ["#000000"] := by
  refine ⟨fun c => rfl, is_light_iff, is_dark_iff, ?_, ?_, ?_, by decide, by decide⟩
  · unfold brightness
    rw [show brightness1000 "#ffffff" = 255000 from by decide]
    norm_num
  · unfold brightness
    rw [show brightness1000 "#000000" = 0 from by decide]
    norm_num
  · unfold brightness
    rw [show brightness1000 "#808080" = 128000 from by decide]
    norm_num

/-- C5 (confirmed): for every input, ui_components holds exactly the five
keys button, button_hover, header, card_background, border in insertion
order, with button and header the primary color, button_hover the secondary,
border the constant "#e0e0e0", and card_background "#ffffff" unless the
background already is "#ffffff", in which case "#f8f9fa". -/
theorem claim_C5 (ic dc : List String) :
    (organize_palette ic dc).ui_components.map Prod.fst =
      ["button", "button_hover", "header", "card_background", "border"] ∧
    (organize_palette ic dc).ui_components.lookup "button" =
      some (organize_palette ic dc).primary ∧
    (organize_palette ic dc).ui_components.lookup "button_hover" =
      some (organize_palette ic dc).secondary ∧
    (organize_palette ic dc).ui_components.lookup "header" =
      some (organize_palette ic dc).primary ∧
    (organize_palette ic dc).ui_components.lookup "card_background" =
      some (if (organize_palette ic dc).background ≠ "#ffffff" then "#ffffff" else "#f8f9fa") ∧
    (organize_palette ic dc).ui_components.lookup "border" = some "#e0e0e0" :=
  ⟨rfl, rfl, rfl, rfl, rfl, rfl⟩

/-- C6 (corrected, amended): every element either adapter outputs is a hash
sign followed by six hex digits, possibly followed by one trailing newline —
the validity filter is Python `re.match` with a dollar anchor, which also
accepts a token with a single final newline — and a reply holding no
decodable JSON array and no 6-hex-digit token yields the empty sequence from
both adapters (the parsing is a total function: no exception escapes). -/
theorem claim_C6 (text : String) :
    (∀ c ∈ extract_colors_parse text, pymatchHex c = true) ∧
    (∀ c ∈ suggest_colors_parse text, pymatchHex c = true) ∧
    ((decodeJsonArray text).isNone = true → findallHex text.toList = [] →
      extract_colors_parse text = [] ∧ suggest_colors_parse text = []) := by
  refine ⟨?_, ?_, fun h1 h2 => ?_⟩
  · exact parse_provider_reply_all_match text
  · exact parse_provider_reply_all_match text
  · exact ⟨parse_provider_reply_empty text h1 h2, parse_provider_reply_empty text h1 h2⟩

/-- C6, witness: a reply with no bracket and no hex token parses to the empty
sequence in both adapters. -/
theorem claim_C6_witness :
    extract_colors_parse "nothing here" = [] ∧ suggest_colors_parse "nothing here" = [] :=
  (claim_C6 "nothing here").2.2 (by decide) (by decide)

/-- C6, counterexample to the claim as stated: the reply whose thirteen
characters form a JSON array with the one string element "#aabbcc\n" makes
both adapters output that very string, which does not fully match the
6-hex-digit pattern (it has a trailing newline), because Python `re.match`
accepts the newline before the dollar. -/
theorem claim_C6_cex :
    extract_colors_parse "[\"#aabbcc\\n\"]" =
      [String.mk ['#', 'a', 'a', 'b', 'b', 'c', 'c', '\n']] ∧
    suggest_colors_parse "[\"#aabbcc\\n\"]" =
      [String.mk ['#', 'a', 'a', 'b', 'b', 'c', 'c', '\n']] ∧
    isHexColor (String.mk ['#', 'a', 'a', 'b', 'b', 'c', 'c', '\n']) = false := by
  decide

/-- C7 (confirmed): every entry of the request handler's color_analysis
carries the organized-palette color of its role; its is_perfect_match flag is
true exactly when `description_based` has, at the role's positional index,
an element equal to that color; and its suggested_color is the positional
entry when the two differ and nothing when they agree or the index does not
exist. -/
theorem claim_C7 (palette : Palette) (description_based : List String)
    (r : String) (ca : ColorAnalysis)
    (hmem : (r, ca) ∈ color_analysis palette description_based) :
    ca.color = roleColor palette r ∧
    (ca.is_perfect_match = true ↔
      description_based.get? (roleIdx r) = some (roleColor palette r)) ∧
    ca.suggested_color =
      (if description_based.get? (roleIdx r) = some (roleColor palette r) then none
       else description_based.get? (roleIdx r)) := by
  simp only [color_analysis, List.mem_cons, List.not_mem_nil, or_false,
    Prod.mk.injEq] at hmem
  rcases hmem with ⟨rfl, rfl⟩ | ⟨rfl, rfl⟩ | ⟨rfl, rfl⟩ | ⟨rfl, rfl⟩ | ⟨rfl, rfl⟩ <;>
    exact ⟨rfl, decide_eq_true_iff, rfl⟩

/-- C7, witness: with the default palette and the single suggestion
"#3498db", the primary entry is a perfect match. -/
theorem claim_C7_witness :
    (analyzeRole (organize_palette [] []).primary (["#3498db"].get? 0)
      "The suggested color better aligns with your project\x27s theme and enhances user experience").is_perfect_match
        = true :=
  (claim_C7 (organize_palette [] []) ["#3498db"] "primary" _
      (List.mem_cons_self _ _)).2.1.mpr (by decide)

/-- C8 (corrected, amended): the adapters perform no case normalization:
for every provider reply, each element either adapter outputs is one of the
raw candidate strings drawn from the reply — a decoded JSON array element or
a scanned token — either verbatim or with nothing but a hash sign prepended,
its casing untouched; in particular the uppercase token "#AABBCC" passes the
case-insensitive filter and is output exactly as it appeared. -/
theorem claim_C8 (text : String) :
    (∀ c ∈ extract_colors_parse text,
      ∃ raw ∈ (rawColors text).getD [], c = raw ∨ c = String.mk ('#' :: raw.toList)) ∧
    (∀ c ∈ suggest_colors_parse text,
      ∃ raw ∈ (rawColors text).getD [], c = raw ∨ c = String.mk ('#' :: raw.toList)) ∧
    extract_colors_parse "Use #AABBCC here" = ["#AABBCC"] ∧
    suggest_colors_parse "Use #AABBCC here" = ["#AABBCC"] :=
  ⟨parse_provider_reply_from_raw text, parse_provider_reply_from_raw text,
    by decide, by decide⟩

/-- C8, counterexample to the claim as stated: a reply carrying the
uppercase token "#AABBCC" yields an output whose element is "#AABBCC", not
its lower-cased form "#aabbcc" — no lower-casing happens anywhere in the
adapters. -/
theorem claim_C8_cex :
    suggest_colors_parse "Reply with #AABBCC please" = ["#AABBCC"] ∧
    ("#AABBCC" : String) ≠ "#aabbcc" := by
  decide

/-- C9 (confirmed): the card_background entry of ui_components always
differs from the background role color — the conditional assignment picks
"#ffffff" exactly when the background is not "#ffffff", and "#f8f9fa"
otherwise. -/
theorem claim_C9 (ic dc : List String) :
    ((organize_palette ic dc).ui_components.lookup "card_background" ==
      some (organize_palette ic dc).background) = false := by
  have h : (organize_palette ic dc).ui_components.lookup "card_background" =
      some (if (organize_palette ic dc).background ≠ "#ffffff" then "#ffffff"
        else "#f8f9fa") := rfl
  rw [h]
  by_cases hb : (organize_palette ic dc).background = "#ffffff"
  · rw [if_neg (fun hcontra => hcontra hb), hb]
    decide
  · rw [if_pos hb]
    exact beq_eq_false_iff_ne.mpr (fun hcontra => hb (Option.some.inj hcontra).symm)

/-- C10 (confirmed): the five role colors need not be pairwise distinct: on
`image_colors = ["#ffffff"]` and empty description colors, primary and
background both receive "#ffffff". -/
theorem claim_C10 :
    (organize_palette ["#ffffff"] []).primary = "#ffffff" ∧
    (organize_palette ["#ffffff"] []).background = "#ffffff" ∧
    (organize_palette ["#ffffff"] []).primary = (organize_palette ["#ffffff"] []).background := by
  decide
